import Mathlib

/-!
Shallow embedding of the "friendly iframe" embed unit of the amphtml
repository (`src/friendly-iframe-embed.js`): the HTML merger that injects a
`<base>` tag and font `<link>` tags into an embed document, the iframe
readiness predicate, the visibility state holder, the readiness-wait /
install pipeline, and the destroy operation.

Strings are modelled as `List Char`; JavaScript `String.prototype.indexOf`
(with its `-1` sentinel) is modelled over `Int`.
-/

namespace FriendlyIframe

/-- JavaScript `s.indexOf(pat, start)` for a non-empty pattern: the smallest
index `i ≥ start` at which `pat` occurs in `s`, or `-1` when there is none. -/
def jsIndexOfFrom (s pat : List Char) (start : Nat) : Int :=
  match (List.range (s.length + 1)).find?
      (fun i => decide (start ≤ i) && pat.isPrefixOf (s.drop i)) with
  | some i => (i : Int)
  | none => -1

/-- The search pattern `<HEAD` from `mergeHtml`. -/
def headPat : List Char := ("<HEAD").toList

/-- The search pattern `<BODY` from `mergeHtml`. -/
def bodyPat : List Char := ("<BODY").toList

/-- The search pattern `<HTML` from `mergeHtml`. -/
def htmlPat : List Char := ("<HTML").toList

/-- The search pattern `>` from `mergeHtml`. -/
def gtPat : List Char := [('>' : Char)]

/-- Modelled from the spec: the HTML-escaping utility `escapeHtml` (imported
from `./dom`, whose source is not part of this excerpt). Per the spec it
"must escape `&`, `<`, `>`, `\"`, `'` at minimum"; an ampersand in a URL
becomes `&amp;`. The apostrophe (code point 39) maps to `&#x27;`. -/
def escapeChar (c : Char) : List Char :=
  if c = '&' then ("&amp;").toList
  else if c = '<' then ("&lt;").toList
  else if c = '>' then ("&gt;").toList
  else if c = '"' then ("&quot;").toList
  else if c.toNat = 39 then ['&', '#', 'x', '2', '7', ';']
  else [c]

/-- Modelled from the spec: `escapeHtml` applied to a whole string. -/
def escapeHtml (s : List Char) : List Char := s.flatMap escapeChar

/-- The embed spec (`FriendlyIframeSpec` typedef): url, html, optional
extension ids, optional fonts. `none` models a missing (`null`/`undefined`)
array, `some []` an empty one. -/
structure FriendlyIframeSpec where
  url : List Char
  html : List Char
  extensionIds : Option (List String) := none
  fonts : Option (List (List Char)) := none

/-- The insertion-point computation of `mergeHtml` on the uppercased
document: first `<HEAD` (then just past the next `>`), else `<BODY` (at the
tag), else `<HTML` (then just past the next `>`), else `-1`. Mirrors the
`indexOf`/`+ 1` arithmetic of the source, including the quirk that a missing
`>` after `<HEAD`/`<HTML` yields `-1 + 1 = 0`. -/
def insertionPoint (up : List Char) : Int :=
  let ip0 := jsIndexOfFrom up headPat 0
  let ip1 := if ip0 ≠ -1 then jsIndexOfFrom up gtPat (ip0.toNat + 1) + 1 else ip0
  let ip2 := if ip1 = -1 then jsIndexOfFrom up bodyPat 0 else ip1
  if ip2 = -1 then
    let j := jsIndexOfFrom up htmlPat 0
    if j ≠ -1 then jsIndexOfFrom up gtPat (j.toNat + 1) + 1 else j
  else ip2

/-- The `<base href="...">` tag pushed by `mergeHtml`, href HTML-escaped. -/
def baseTagFor (url : List Char) : List Char :=
  ("<base href=\"").toList ++ escapeHtml url ++ ("\">").toList

/-- The stylesheet `<link>` tag pushed by `mergeHtml` for one font, href
HTML-escaped. -/
def fontLinkFor (font : List Char) : List Char :=
  ("<link href=\"").toList ++ escapeHtml font ++
    ("\" rel=\"stylesheet\" type=\"text/css\">").toList

/-- The font `<link>` tags of `mergeHtml`, one per font in list order;
nothing when `spec.fonts` is absent. -/
def fontLinksFor (fonts : Option (List (List Char))) : List Char :=
  match fonts with
  | none => []
  | some fs => (fs.map fontLinkFor).flatten

/-- The "Preambule" part of `mergeHtml`: the document text before the
insertion point, pushed only when `ip > 0`. -/
def mergePre (spec : FriendlyIframeSpec) : List Char :=
  let ip := insertionPoint (spec.html.map Char.toUpper)
  if ip > 0 then spec.html.take ip.toNat else []

/-- The "Postambule" part of `mergeHtml`: the document text from the
insertion point on when `ip > 0`, otherwise the whole original document. -/
def mergePost (spec : FriendlyIframeSpec) : List Char :=
  let ip := insertionPoint (spec.html.map Char.toUpper)
  if ip > 0 then spec.html.drop ip.toNat else spec.html

/-- `mergeHtml(spec)`: preamble, `<base>` tag, font links, postamble, joined
in that order, with the insertion point computed on the uppercased html. -/
def mergeHtml (spec : FriendlyIframeSpec) : List Char :=
  mergePre spec ++ baseTagFor spec.url ++ fontLinksFor spec.fonts ++ mergePost spec

/-- Native document ready-state of the child document. -/
inductive ReadyState where
  | loading
  | interactive
  | complete
deriving DecidableEq

/-- A body element: its list of child DOM nodes (abstracted to ids). -/
structure BodyElement where
  childNodes : List Nat
deriving DecidableEq

/-- `body.firstChild`: the first child node, `none` (JS `null`) when the
body has no children. -/
def BodyElement.firstChild (b : BodyElement) : Option Nat := b.childNodes.head?

/-- The child document: its native ready-state and optional body element. -/
structure ChildDoc where
  readyState : ReadyState
  body : Option BodyElement
deriving DecidableEq

/-- Modelled from the spec: the `isDocumentReady` predicate (imported from
`./document-ready`, whose source is not part of this excerpt): "checks
native ready-state is not the initial `loading` stage". -/
def isDocumentReady (d : ChildDoc) : Bool := d.readyState ≠ ReadyState.loading

/-- The child window, carrying its document. -/
structure ChildWindow where
  document : ChildDoc
deriving DecidableEq

/-- An iframe element: its content window (`none` when detached). -/
structure IframeEl where
  contentWindow : Option ChildWindow
deriving DecidableEq

/-- `isIframeReady(iframe)`: child window exists, document is ready, the
document has a body, and the body has a (truthy) `firstChild`. -/
def isIframeReady (iframe : IframeEl) : Bool :=
  match iframe.contentWindow with
  | none => false
  | some w =>
    isDocumentReady w.document &&
      (match w.document.body with
       | none => false
       | some b => b.firstChild.isSome)

/-- `body.appendChild(node)` on the iframe's child document body; identity
when there is no window or no body. Touches nothing but the child list. -/
def appendToBody (f : IframeEl) (n : Nat) : IframeEl :=
  match f.contentWindow with
  | none => f
  | some w =>
    match w.document.body with
    | none => f
    | some b =>
      let b2 : BodyElement := { childNodes := b.childNodes ++ [n] }
      let d2 : ChildDoc := { readyState := w.document.readyState, body := some b2 }
      { contentWindow := some { document := d2 } }

/-- The visibility state of a `FriendlyIframeEmbed`: the private `visible_`
flag and the subscribers of `visibilityObservable_` in subscription order
(handlers abstracted to ids). -/
structure EmbedVisibility where
  visible : Bool
  handlers : List Nat
deriving DecidableEq

/-- Visibility state right after the constructor: `visible_ = false`, no
subscribers yet. -/
def initEmbedVisibility : EmbedVisibility := { visible := false, handlers := [] }

/-- `setVisible_(visible)`: when the value changes, store it and fire the
observable — modelled from the spec, `Observable.fire` (source not in this
excerpt) "notifies all current subscribers synchronously in subscription
order" with the fired value, here the new flag. Returns the new state and
the list of notifications `(handler, value)` in delivery order. -/
def setVisible_ (s : EmbedVisibility) (v : Bool) : EmbedVisibility × List (Nat × Bool) :=
  if s.visible ≠ v then
    ({ s with visible := v }, s.handlers.map (fun h => (h, v)))
  else
    (s, [])

/-- A sequence of `setVisible_` calls, accumulating all notifications in
delivery order. -/
def setVisibleSeq (s : EmbedVisibility) (vs : List Bool) :
    EmbedVisibility × List (Nat × Bool) :=
  vs.foldl
    (fun acc v =>
      let r := setVisible_ acc.1 v
      (r.1, acc.2 ++ r.2))
    (s, [])

/-- Events observed by the readiness wait of `installFriendlyIframeEmbed`:
a timer tick (with whether `isIframeReady` holds at that instant), or the
settling of the `loadedPromise` (success, or rejection with an error). -/
inductive WaitEvent where
  | tick (ready : Bool)
  | loadSettled (r : Except String Unit)

/-- State of the readiness wait: whether `readyPromise` has been resolved,
whether the polling interval has been cleared, and the errors forwarded to
`rethrowAsync` (the global async-error channel), in order. -/
structure WaitState where
  resolved : Bool
  cleared : Bool
  rethrown : List String
deriving DecidableEq

/-- One step of the readiness wait. A tick runs the interval callback
(nothing once the interval is cleared): if the iframe is ready, resolve and
clear. Settling of `loadedPromise` runs
`loadedPromise.catch(e => rethrowAsync(e)).then(() => { resolve(); clearInterval(); })`:
a rejection is forwarded to `rethrowAsync`, and either way the wait is
resolved and the interval cleared. -/
def waitStep (st : WaitState) (e : WaitEvent) : WaitState :=
  match e with
  | .tick r =>
    if st.cleared then st
    else if r then { st with resolved := true, cleared := true }
    else st
  | .loadSettled res =>
    let st1 :=
      match res with
      | .error err => { st with rethrown := st.rethrown ++ [err] }
      | .ok _ => st
    { st1 with resolved := true, cleared := true }

/-- The readiness wait: immediately resolved (no interval ever started)
when `isIframeReady` already holds at install time, else the fold of the
observed events from the initial waiting state. -/
def runWait (initReady : Bool) (events : List WaitEvent) : WaitState :=
  if initReady then { resolved := true, cleared := true, rethrown := [] }
  else events.foldl waitStep { resolved := false, cleared := false, rethrown := [] }

/-- Observable actions of `installFriendlyIframeEmbed`, in program order. -/
inductive Action where
  | setHiddenStyle
  | loadExtension (id : String)
  | attachToContainer
  | readinessSatisfied
  | installExtensions (ids : List String) (withHook : Bool)
  | signalRenderStart
  | clearHiddenStyle
  | resolveEmbed
deriving DecidableEq

/-- The actions of `installFriendlyIframeEmbed` before the readiness wait:
hide the iframe, pre-load each listed extension in list order, attach the
iframe to the container. -/
def installSetup (spec : FriendlyIframeSpec) : List Action :=
  [Action.setHiddenStyle] ++
    ((spec.extensionIds.getD []).map Action.loadExtension) ++
    [Action.attachToContainer]

/-- `startRender_()`: fire the `render-start` signal, then clear the hidden
visibility style. -/
def startRenderActions : List Action := [Action.signalRenderStart, Action.clearHiddenStyle]

/-- The trace of one run of `installFriendlyIframeEmbed`, given whether the
iframe was ready at the initial check and the wait events observed. When
the wait resolves, the `readyPromise.then` continuation runs: construct the
embed, install the extensions (the spec's ordered id list, with the
optional pre-install hook), `startRender_`, and resolve the returned
promise with the embed. The continuation has no rejection path for a load
failure: the returned promise is never rejected by one. -/
def installFriendlyIframeEmbed (spec : FriendlyIframeSpec) (withHook : Bool)
    (initReady : Bool) (events : List WaitEvent) : List Action × WaitState :=
  let w := runWait initReady events
  if w.resolved then
    (installSetup spec ++
      [Action.readinessSatisfied,
       Action.installExtensions (spec.extensionIds.getD []) withHook] ++
      startRenderActions ++ [Action.resolveEmbed], w)
  else
    (installSetup spec, w)

/-- The world state touched by `FriendlyIframeEmbed.destroy`: the child
windows registered in the resource tracker, the windows whose embed-scoped
services have been disposed, and the iframe's `__AMP_EMBED__` back-reference
(the embed id set by the installer). -/
structure EmbedWorld where
  resourceChildWindows : List Nat
  disposedWindows : List Nat
  embedProp : Option Nat
deriving DecidableEq

/-- Modelled from the spec: `resources.removeForChildWindow(win)` of the
resource-tracking service (source not in this excerpt) removes every
registration of that child window from the tracker. -/
def removeForChildWindow (regs : List Nat) (win : Nat) : List Nat :=
  regs.filter (fun w => w ≠ win)

/-- `destroy()`: `resourcesForDoc(this.iframe).removeForChildWindow(this.win)`
then `disposeServicesForEmbed(this.win)` (the latter modelled from the spec:
it disposes the services instantiated for the window). Nothing else is
touched — in particular the `__AMP_EMBED__` back-reference is left as is. -/
def destroyEmbed (world : EmbedWorld) (win : Nat) : EmbedWorld :=
  { world with
      resourceChildWindows := removeForChildWindow world.resourceChildWindows win,
      disposedWindows := world.disposedWindows ++ [win] }

/-- `getFriendlyIframeEmbedOptional(iframe)`: return `iframe[EMBED_PROP]`. -/
def getFriendlyIframeEmbedOptional (world : EmbedWorld) : Option Nat :=
  world.embedProp

/-- Concrete embed spec: a mixed-case `<HeAd>` document with two fonts. -/
def specC1 : FriendlyIframeSpec :=
  { url := ("https://pub.example/page").toList,
    html := ("<HeAd><meta></HeAd><body>x</body>").toList,
    fonts := some [("https://fonts.example/f1.css").toList,
                   ("https://fonts.example/f2.css").toList] }

/-- Concrete embed spec: a document with a `<body>` tag but no `<head>` and
no `<html>`. -/
def specC2 : FriendlyIframeSpec :=
  { url := ("https://pub.example/p2").toList,
    html := ("x<body>hi</body>").toList,
    fonts := none }

/-- Concrete embed spec: a document with none of `<head>`, `<body>`,
`<html>`. -/
def specC3 : FriendlyIframeSpec :=
  { url := ("https://pub.example/p3").toList,
    html := ("<p>hello</p>").toList,
    fonts := some [("https://fonts.example/f3.css").toList] }

/-- Concrete embed spec: the worked example of the specification, with an
ampersand in the base URL and one font. -/
def specC4 : FriendlyIframeSpec :=
  { url := ("https://x.test/a&b").toList,
    html := ("<html><head></head><body>hi</body></html>").toList,
    fonts := some [("https://f.test/a.css").toList] }

/-- The font of `specC4`. -/
def fontC4 : List Char := ("https://f.test/a.css").toList

/-- Concrete embed spec: `<head` occurs (at index 6) but no `>` occurs
anywhere after it, while `<body` occurs at index 0. -/
def specC10 : FriendlyIframeSpec :=
  { url := ("https://pub.example/p10").toList,
    html := ("<body><head").toList,
    fonts := none }

/-- A trivial embed spec with no extensions and no fonts. -/
def specEmpty : FriendlyIframeSpec := { url := [], html := [] }

/-- Concrete iframe state: window present, document complete, body present
with zero children. -/
def iframeC5 : IframeEl :=
  { contentWindow := some
      { document := { readyState := ReadyState.complete,
                      body := some { childNodes := [] } } } }

/-- Concrete world: child window 1 registered in the resource tracker, the
iframe's `__AMP_EMBED__` back-reference set to embed 7. -/
def worldC9 : EmbedWorld :=
  { resourceChildWindows := [1], disposedWindows := [], embedProp := some 7 }

end FriendlyIframe

namespace FriendlyIframe

/-- If `pat` is not an infix of `s`, the JS `indexOf` search returns `-1`
from any start index. -/
theorem jsIndexOfFrom_eq_neg_one (s pat : List Char) (start : Nat)
    (h : ¬ pat <:+: s) : jsIndexOfFrom s pat start = -1 := by
  unfold jsIndexOfFrom
  cases hf : (List.range (s.length + 1)).find?
      (fun i => decide (start ≤ i) && pat.isPrefixOf (s.drop i)) with
  | none => rfl
  | some i =>
    exfalso
    have hpred := List.find?_some hf
    simp only [Bool.and_eq_true, decide_eq_true_eq] at hpred
    have hpre : pat <+: s.drop i := List.isPrefixOf_iff_prefix.mp hpred.2
    exact h (hpre.isInfix.trans (List.drop_suffix i s).isInfix)

/-- Insertion point when `<HEAD` is found at `p` and the next `>` at `q`. -/
theorem insertionPoint_head (up : List Char) (p q : Nat)
    (hp : jsIndexOfFrom up headPat 0 = (p : Int))
    (hq : jsIndexOfFrom up gtPat (p + 1) = (q : Int)) :
    insertionPoint up = (q : Int) + 1 := by
  have h1 : ((p : Int)) ≠ -1 := by omega
  have h2 : ¬((q : Int) + 1 = -1) := by omega
  simp only [insertionPoint, hp, h1, if_true, ne_eq, not_false_iff, if_neg h2,
    Int.toNat_natCast, hq, ite_true, ite_false]

/-- Insertion point when `<HEAD` is absent and `<BODY` is found at `b`. -/
theorem insertionPoint_body (up : List Char) (b : Nat)
    (hhead : jsIndexOfFrom up headPat 0 = -1)
    (hbody : jsIndexOfFrom up bodyPat 0 = (b : Int)) :
    insertionPoint up = (b : Int) := by
  have h1 : ¬((b : Int) = -1) := by omega
  simp only [insertionPoint, hhead, hbody, ne_eq, not_true_eq_false, if_false,
    if_true, ite_true, ite_false, if_neg h1, reduceIte]

/-- Insertion point when none of the three tags occurs. -/
theorem insertionPoint_none (up : List Char)
    (hhead : jsIndexOfFrom up headPat 0 = -1)
    (hbody : jsIndexOfFrom up bodyPat 0 = -1)
    (hhtml : jsIndexOfFrom up htmlPat 0 = -1) :
    insertionPoint up = -1 := by
  simp only [insertionPoint, hhead, hbody, hhtml, ne_eq, not_true_eq_false,
    if_false, if_true, ite_true, ite_false, reduceIte]

/-- `mergeHtml` splits the document at a positive insertion point. -/
theorem mergeHtml_split_pos (spec : FriendlyIframeSpec) (n : Nat)
    (h : insertionPoint (spec.html.map Char.toUpper) = (n : Int)) (hn : 0 < n) :
    mergeHtml spec =
      spec.html.take n ++ baseTagFor spec.url ++ fontLinksFor spec.fonts ++
        spec.html.drop n := by
  have hpos : (0 : Int) < (n : Int) := by omega
  simp only [mergeHtml, mergePre, mergePost, h, if_pos hpos, Int.toNat_natCast,
    List.append_assoc]

/-- `mergeHtml` prepends the injected tags when the insertion point is not
positive (not found, or the index-0 quirk). -/
theorem mergeHtml_split_nonpos (spec : FriendlyIframeSpec)
    (h : insertionPoint (spec.html.map Char.toUpper) ≤ 0) :
    mergeHtml spec =
      baseTagFor spec.url ++ fontLinksFor spec.fonts ++ spec.html := by
  have hneg : ¬((0 : Int) < insertionPoint (spec.html.map Char.toUpper)) := by omega
  simp only [mergeHtml, mergePre, mergePost, if_neg hneg, List.nil_append,
    List.append_assoc]

/-- C1: when the html contains `<head>` (any case), `mergeHtml` inserts the
`<base>` tag (and font links) immediately after the `>` that closes the
head tag — the document is split exactly one past the first `>` following
the first `<HEAD` of the uppercased text, with everything before that point
emitted verbatim first. -/
theorem mergeHtml_inserts_after_head (spec : FriendlyIframeSpec) (p q : Nat)
    (hp : jsIndexOfFrom (spec.html.map Char.toUpper) headPat 0 = (p : Int))
    (hq : jsIndexOfFrom (spec.html.map Char.toUpper) gtPat (p + 1) = (q : Int)) :
    mergeHtml spec =
      spec.html.take (q + 1) ++ baseTagFor spec.url ++ fontLinksFor spec.fonts ++
        spec.html.drop (q + 1) := by
  have hip := insertionPoint_head (spec.html.map Char.toUpper) p q hp hq
  exact mergeHtml_split_pos spec (q + 1) (by rw [hip]; omega) (by omega)

/-- Witness for C1 at `specC1`: `<HEAD` at 0, its `>` at 5, split at 6. -/
theorem mergeHtml_inserts_after_head_witness :
    mergeHtml specC1 =
      specC1.html.take (5 + 1) ++ baseTagFor specC1.url ++
        fontLinksFor specC1.fonts ++ specC1.html.drop (5 + 1) :=
  mergeHtml_inserts_after_head specC1 0 5 (by decide) (by decide)

/-- C2: when the html has no `<head>` and no `<html>` but a `<body>`,
`mergeHtml` inserts the `<base>` tag (and font links) at the index of the
first `<BODY` of the uppercased text, i.e. immediately before the body tag,
with everything before that index emitted verbatim first. -/
theorem mergeHtml_inserts_before_body (spec : FriendlyIframeSpec) (b : Nat)
    (hhead : ¬ headPat <:+: spec.html.map Char.toUpper)
    (hhtml : ¬ htmlPat <:+: spec.html.map Char.toUpper)
    (hbody : jsIndexOfFrom (spec.html.map Char.toUpper) bodyPat 0 = (b : Int)) :
    mergeHtml spec =
      spec.html.take b ++ baseTagFor spec.url ++ fontLinksFor spec.fonts ++
        spec.html.drop b := by
  have hh := jsIndexOfFrom_eq_neg_one (spec.html.map Char.toUpper) headPat 0 hhead
  have hip := insertionPoint_body (spec.html.map Char.toUpper) b hh hbody
  rcases Nat.eq_zero_or_pos b with hb | hb
  · subst hb
    have := mergeHtml_split_nonpos spec (by rw [hip]; omega)
    simpa using this
  · exact mergeHtml_split_pos spec b hip hb

/-- Witness for C2 at `specC2`: `<BODY` at index 1. -/
theorem mergeHtml_inserts_before_body_witness :
    mergeHtml specC2 =
      specC2.html.take 1 ++ baseTagFor specC2.url ++ fontLinksFor specC2.fonts ++
        specC2.html.drop 1 :=
  mergeHtml_inserts_before_body specC2 1 (by decide) (by decide) (by decide)

/-- C3: when the html contains none of `<head`, `<body`, `<html`
(case-insensitive) — and likewise whenever the computed insertion point is
exactly 0, the found-at-index-0 quirk — `mergeHtml` emits the `<base>` tag,
then the font links, then the entire original html unchanged. -/
theorem mergeHtml_prepends_when_no_split (spec : FriendlyIframeSpec)
    (h : (¬ headPat <:+: spec.html.map Char.toUpper ∧
          ¬ bodyPat <:+: spec.html.map Char.toUpper ∧
          ¬ htmlPat <:+: spec.html.map Char.toUpper) ∨
         insertionPoint (spec.html.map Char.toUpper) = 0) :
    mergeHtml spec =
      baseTagFor spec.url ++ fontLinksFor spec.fonts ++ spec.html := by
  refine mergeHtml_split_nonpos spec ?_
  rcases h with ⟨h1, h2, h3⟩ | h0
  · have := insertionPoint_none (spec.html.map Char.toUpper)
      (jsIndexOfFrom_eq_neg_one _ _ _ h1)
      (jsIndexOfFrom_eq_neg_one _ _ _ h2)
      (jsIndexOfFrom_eq_neg_one _ _ _ h3)
    omega
  · omega

/-- Witness for C3 at `specC3`: none of the three tags occurs. -/
theorem mergeHtml_prepends_when_no_split_witness :
    mergeHtml specC3 =
      baseTagFor specC3.url ++ fontLinksFor specC3.fonts ++ specC3.html :=
  mergeHtml_prepends_when_no_split specC3 (Or.inl ⟨by decide, by decide, by decide⟩)

/-- C10: when `<head` occurs but no `>` occurs at any later index, the
computed insertion point is `-1 + 1 = 0`, which the output construction
treats as not found: `mergeHtml` prepends the `<base>` tag and font links
to the whole document and never falls back to the `<body>`/`<html>` rules,
even if those substrings occur. -/
theorem mergeHtml_head_without_gt (spec : FriendlyIframeSpec) (p : Nat)
    (hp : jsIndexOfFrom (spec.html.map Char.toUpper) headPat 0 = (p : Int))
    (hq : jsIndexOfFrom (spec.html.map Char.toUpper) gtPat (p + 1) = -1) :
    insertionPoint (spec.html.map Char.toUpper) = 0 ∧
      mergeHtml spec =
        baseTagFor spec.url ++ fontLinksFor spec.fonts ++ spec.html := by
  have hip : insertionPoint (spec.html.map Char.toUpper) = 0 := by
    have h1 : ((p : Int)) ≠ -1 := by omega
    simp only [insertionPoint, hp, h1, if_true, ne_eq, not_false_iff,
      Int.toNat_natCast, hq, ite_true, ite_false, reduceIte]
    norm_num
  exact ⟨hip, mergeHtml_split_nonpos spec (by rw [hip])⟩

/-- Witness for C10 at `specC10`: `<head` at 6, no later `>`, `<body` at 0
is ignored. -/
theorem mergeHtml_head_without_gt_witness :
    insertionPoint (specC10.html.map Char.toUpper) = 0 ∧
      mergeHtml specC10 =
        baseTagFor specC10.url ++ fontLinksFor specC10.fonts ++ specC10.html :=
  mergeHtml_head_without_gt specC10 6 (by decide) (by decide)

/-- C4: with a fonts list, `mergeHtml` emits exactly one stylesheet
`<link>` tag per font, in list order, all immediately after the single
`<base>` tag and before the post-insertion-point remainder; the base href
and every font href are HTML-escaped (an ampersand becomes `&amp;`). -/
theorem mergeHtml_fonts_in_order (spec : FriendlyIframeSpec)
    (fs : List (List Char)) (hf : spec.fonts = some fs) :
    mergeHtml spec =
      mergePre spec ++ baseTagFor spec.url ++ (fs.map fontLinkFor).flatten ++
        mergePost spec ∧
    baseTagFor spec.url =
      ("<base href=\"").toList ++ escapeHtml spec.url ++ ("\">").toList ∧
    (∀ f, fontLinkFor f =
      ("<link href=\"").toList ++ escapeHtml f ++
        ("\" rel=\"stylesheet\" type=\"text/css\">").toList) ∧
    escapeHtml (("a&b").toList) = ("a&amp;b").toList := by
  refine ⟨?_, rfl, fun f => rfl, by decide⟩
  simp only [mergeHtml, fontLinksFor, hf]

/-- Witness for C4 at the specification's worked example `specC4`. -/
theorem mergeHtml_fonts_in_order_witness :
    mergeHtml specC4 =
      mergePre specC4 ++ baseTagFor specC4.url ++
        ([fontC4].map fontLinkFor).flatten ++ mergePost specC4 ∧
    baseTagFor specC4.url =
      ("<base href=\"").toList ++ escapeHtml specC4.url ++ ("\">").toList ∧
    (∀ f, fontLinkFor f =
      ("<link href=\"").toList ++ escapeHtml f ++
        ("\" rel=\"stylesheet\" type=\"text/css\">").toList) ∧
    escapeHtml (("a&b").toList) = ("a&amp;b").toList :=
  mergeHtml_fonts_in_order specC4 [fontC4] rfl

/-- C5: `isIframeReady` is true iff the child window exists, the child
document is past the initial loading stage (`isDocumentReady`), it has a
body, and that body has at least one child node; in particular a body with
zero children yields false, and appending a single child (no other
mutation) yields true. -/
theorem isIframeReady_iff (f : IframeEl) :
    (isIframeReady f = true ↔
      ∃ w, f.contentWindow = some w ∧ isDocumentReady w.document = true ∧
        ∃ b, w.document.body = some b ∧ b.childNodes ≠ []) ∧
    (∀ w b, f.contentWindow = some w → w.document.body = some b →
      b.childNodes = [] → isIframeReady f = false) ∧
    (∀ w b n, f.contentWindow = some w → isDocumentReady w.document = true →
      w.document.body = some b → b.childNodes = [] →
      isIframeReady (appendToBody f n) = true) := by
  obtain ⟨cw⟩ := f
  refine ⟨?_, ?_, ?_⟩
  · cases cw with
    | none => simp [isIframeReady]
    | some w =>
      obtain ⟨⟨rs, bd⟩⟩ := w
      cases bd with
      | none => simp [isIframeReady]
      | some b =>
        obtain ⟨ns⟩ := b
        cases ns with
        | nil => simp [isIframeReady, BodyElement.firstChild]
        | cons x xs => simp [isIframeReady, BodyElement.firstChild]
  · intro w b hw hb hnil
    simp only at hw
    subst hw
    simp [isIframeReady, hb, BodyElement.firstChild, hnil]
  · intro w b n hw hready hb hnil
    simp only at hw
    subst hw
    obtain ⟨⟨rs, bd⟩⟩ := w
    simp only at hb
    subst hb
    simp only [isDocumentReady] at hready
    simp [appendToBody, isIframeReady, isDocumentReady, BodyElement.firstChild, hready]

/-- Witness for C5 at `iframeC5`: empty body is not ready, one appended
child makes it ready. -/
theorem isIframeReady_iff_witness :
    isIframeReady iframeC5 = false ∧ isIframeReady (appendToBody iframeC5 1) = true :=
  ⟨(isIframeReady_iff iframeC5).2.1 _ _ rfl rfl rfl,
   (isIframeReady_iff iframeC5).2.2 _ _ 1 rfl rfl rfl rfl⟩

/-- C6: starting from the constructor default `visible_ = false`,
`setVisible_(v)` mutates the flag and synchronously notifies every current
subscriber, in subscription order, with the new value, iff `v` differs from
the current flag; a no-op set fires nothing, and the alternating sequence
true, false, true fires exactly three notifications, each carrying the new
value. -/
theorem setVisible_notifies_iff_changed (s : EmbedVisibility) (v : Bool) (h : Nat) :
    (s.visible ≠ v →
      setVisible_ s v = ({ s with visible := v }, s.handlers.map (fun hh => (hh, v)))) ∧
    (s.visible = v → setVisible_ s v = (s, [])) ∧
    (setVisibleSeq { initEmbedVisibility with handlers := [h] } [false]).2 = [] ∧
    (setVisibleSeq { initEmbedVisibility with handlers := [h] } [true, false, true]).2 =
      [(h, true), (h, false), (h, true)] := by
  refine ⟨?_, ?_, ?_, ?_⟩
  · intro hne
    simp [setVisible_, hne]
  · intro heq
    simp [setVisible_, heq]
  · simp [setVisibleSeq, setVisible_, initEmbedVisibility]
  · simp [setVisibleSeq, setVisible_, initEmbedVisibility]

/-- Witness for C6: one subscriber, alternating true, false, true. -/
theorem setVisible_notifies_iff_changed_witness :
    (setVisibleSeq { initEmbedVisibility with handlers := [0] } [true, false, true]).2 =
      [(0, true), (0, false), (0, true)] :=
  (setVisible_notifies_iff_changed initEmbedVisibility true 0).2.2.2

/-- C7: if the loaded token rejects during the readiness wait, the error is
forwarded to the global async-error channel (`rethrowAsync`), the polling
interval is cleared, the readiness wait is satisfied, and the install trace
still ends by resolving the returned promise with the embed — the load
failure never rejects it. -/
theorem loadRejection_forwarded_and_wait_satisfied (spec : FriendlyIframeSpec)
    (withHook : Bool) (prior : List WaitEvent) (err : String)
    (hwait : (runWait false prior).resolved = false) :
    runWait false (prior ++ [WaitEvent.loadSettled (Except.error err)]) =
      { resolved := true, cleared := true,
        rethrown := (runWait false prior).rethrown ++ [err] } ∧
    ∃ pre, (installFriendlyIframeEmbed spec withHook false
        (prior ++ [WaitEvent.loadSettled (Except.error err)])).1 =
      pre ++ [Action.resolveEmbed] := by
  have hw : runWait false (prior ++ [WaitEvent.loadSettled (Except.error err)]) =
      waitStep (runWait false prior) (WaitEvent.loadSettled (Except.error err)) := by
    simp [runWait, List.foldl_append]
  have hstep : waitStep (runWait false prior) (WaitEvent.loadSettled (Except.error err)) =
      { resolved := true, cleared := true,
        rethrown := (runWait false prior).rethrown ++ [err] } := by
    simp [waitStep]
  refine ⟨hw.trans hstep, ?_⟩
  refine ⟨installSetup spec ++
    [Action.readinessSatisfied,
     Action.installExtensions (spec.extensionIds.getD []) withHook] ++
    startRenderActions, ?_⟩
  simp [installFriendlyIframeEmbed, hw, hstep, startRenderActions]

/-- Witness for C7: one failed poll, then the loaded token rejects. -/
theorem loadRejection_forwarded_witness :
    runWait false ([WaitEvent.tick false] ++ [WaitEvent.loadSettled (Except.error ("boom"))]) =
      { resolved := true, cleared := true,
        rethrown := (runWait false [WaitEvent.tick false]).rethrown ++ [("boom")] } ∧
    ∃ pre, (installFriendlyIframeEmbed specEmpty true false
        ([WaitEvent.tick false] ++ [WaitEvent.loadSettled (Except.error ("boom"))])).1 =
      pre ++ [Action.resolveEmbed] :=
  loadRejection_forwarded_and_wait_satisfied specEmpty true [WaitEvent.tick false]
    ("boom") (by decide)

/-- C8: in every successful run, extension installation (with the spec's
ordered extension-id list and the optional pre-install hook) happens only
after the readiness wait is satisfied and before the returned promise
resolves with the embed, and the render-start signal (which also clears the
hidden visibility style) fires after extension installation and before the
promise resolves; no such action occurs in the setup prefix. -/
theorem extensions_installed_between_ready_and_resolve (spec : FriendlyIframeSpec)
    (withHook initReady : Bool) (events : List WaitEvent)
    (h : (runWait initReady events).resolved = true) :
    (installFriendlyIframeEmbed spec withHook initReady events).1 =
      installSetup spec ++
        [Action.readinessSatisfied,
         Action.installExtensions (spec.extensionIds.getD []) withHook,
         Action.signalRenderStart, Action.clearHiddenStyle, Action.resolveEmbed] ∧
    ∀ a ∈ installSetup spec,
      a ≠ Action.readinessSatisfied ∧
      (∀ ids hk, a ≠ Action.installExtensions ids hk) ∧
      a ≠ Action.signalRenderStart ∧ a ≠ Action.resolveEmbed := by
  constructor
  · simp [installFriendlyIframeEmbed, h, startRenderActions]
  · intro a ha
    simp only [installSetup, List.mem_append, List.mem_singleton, List.mem_map,
      List.mem_cons, List.not_mem_nil, or_false] at ha
    rcases ha with (rfl | ⟨id, _, rfl⟩) | rfl <;>
      refine ⟨by simp, fun ids hk => by simp, by simp, by simp⟩

/-- Witness for C8: an immediately-ready iframe, no extensions, no hook. -/
theorem extensions_installed_between_witness :
    (installFriendlyIframeEmbed specEmpty false true []).1 =
      installSetup specEmpty ++
        [Action.readinessSatisfied,
         Action.installExtensions (specEmpty.extensionIds.getD []) false,
         Action.signalRenderStart, Action.clearHiddenStyle, Action.resolveEmbed] ∧
    ∀ a ∈ installSetup specEmpty,
      a ≠ Action.readinessSatisfied ∧
      (∀ ids hk, a ≠ Action.installExtensions ids hk) ∧
      a ≠ Action.signalRenderStart ∧ a ≠ Action.resolveEmbed :=
  extensions_installed_between_ready_and_resolve specEmpty false true [] (by decide)

/-- C9 counterexample: at a concrete world (window 1 registered, embed 7
attached to the iframe) `destroy` removes the registration and disposes the
services, but the `__AMP_EMBED__` back-reference is not cleared, so the
claimed conjunction — which includes `getFriendlyIframeEmbedOptional`
yielding nothing afterwards — is false. -/
theorem destroy_clears_backref_counterexample :
    ¬ ((1 : Nat) ∉ (destroyEmbed worldC9 1).resourceChildWindows ∧
       (1 : Nat) ∈ (destroyEmbed worldC9 1).disposedWindows ∧
       getFriendlyIframeEmbedOptional (destroyEmbed worldC9 1) = none) := by
  decide

/-- C9 amended: after `destroy()`, the child window has no residual
registration in the resource tracker (`removeForChildWindow` applied) and
its embed-scoped services are disposed, but the iframe's back-reference is
not cleared: `getFriendlyIframeEmbedOptional` still yields exactly what it
yielded before the destroy. -/
theorem destroy_releases_but_keeps_backref (world : EmbedWorld) (win : Nat) :
    (destroyEmbed world win).resourceChildWindows =
      removeForChildWindow world.resourceChildWindows win ∧
    win ∉ (destroyEmbed world win).resourceChildWindows ∧
    win ∈ (destroyEmbed world win).disposedWindows ∧
    getFriendlyIframeEmbedOptional (destroyEmbed world win) =
      getFriendlyIframeEmbedOptional world := by
  refine ⟨rfl, ?_, ?_, rfl⟩
  · simp [destroyEmbed, removeForChildWindow, List.mem_filter]
  · simp [destroyEmbed]

/-- Witness for C9's amended statement at `worldC9`. -/
theorem destroy_releases_but_keeps_backref_witness :
    (destroyEmbed worldC9 1).resourceChildWindows =
      removeForChildWindow worldC9.resourceChildWindows 1 ∧
    (1 : Nat) ∉ (destroyEmbed worldC9 1).resourceChildWindows ∧
    (1 : Nat) ∈ (destroyEmbed worldC9 1).disposedWindows ∧
    getFriendlyIframeEmbedOptional (destroyEmbed worldC9 1) =
      getFriendlyIframeEmbedOptional worldC9 :=
  destroy_releases_but_keeps_backref worldC9 1

end FriendlyIframe
